import Mathlib

/-!
Verification of the devspace bidirectional sync engine's decision predicates
and the surrounding pipeline/session behaviour, as a shallow embedding of the
Go source (package `sync`: `shouldRemoveRemote`, `shouldUpload`,
`shouldDownload`, `shouldRemoveLocal`; package `cmd`: `startServices`;
package `kubectl`: `ExecBuffered`).
-/

namespace DevSpace

/-- One entry of the file index (`sync.FileInformation`): last-known
synchronized metadata for a relative path. `Mtime` is Unix seconds (Go
`int64`), `Size` bytes. -/
structure FileInformation where
  Name : String
  Size : Int
  Mtime : Int
  IsSymbolicLink : Bool
  IsDirectory : Bool
deriving DecidableEq

/-- The fields of a Go `os.FileInfo` the sync predicates consult:
`IsDir()`, `Mode()&os.ModeSymlink != 0`, `ModTime().Unix()`, `Size()`. -/
structure FileInfo where
  isDir : Bool
  isSymlink : Bool
  mtimeUnix : Int
  size : Int
deriving DecidableEq

/-- A remote-side change record (`remote.Change`): the fields read by
`shouldDownload`. -/
structure Change where
  Path : String
  MtimeUnix : Int
  Size : Int
  IsDir : Bool
deriving DecidableEq

/-- Outcome of the `os.Stat` call in `shouldRemoveLocal`: success with a live
stat, failure with `os.IsNotExist`, or any other failure. -/
inductive StatResult where
  | ok (stat : FileInfo)
  | notExist
  | otherError
deriving DecidableEq

/-- The sync-session state the four predicates read: the two nullable ignore
matchers (`s.ignoreMatcher`, `s.uploadIgnoreMatcher`, each exposing
`MatchesPath`) and the file index map `s.fileIndex.fileMap`. -/
structure Sync where
  ignoreMatcher : Option (String → Bool)
  uploadIgnoreMatcher : Option (String → Bool)
  fileMap : String → Option FileInformation

/-- Go pattern `if m != nil { if m.MatchesPath(p) { ... } }`: a nil matcher
matches nothing. -/
def matchesPath (m : Option (String → Bool)) (p : String) : Bool :=
  match m with
  | none => false
  | some matcher => matcher p

/-- Embedding of `sync.shouldRemoveRemote` (get.go): false on either matcher
hit, false when the path is untracked or tracked as a symlink, true
otherwise. -/
def shouldRemoveRemote (relativePath : String) (s : Sync) : Bool :=
  if matchesPath s.ignoreMatcher relativePath then false
  else if matchesPath s.uploadIgnoreMatcher relativePath then false
  else
    match s.fileMap relativePath with
    | none => false
    | some tracked =>
      if tracked.IsSymbolicLink then false
      else true

/-- Embedding of `sync.shouldUpload` (get.go). The stat is nullable; the
upload-exclusion matcher check is commented out in the source and therefore
absent here. -/
def shouldUpload (relativePath : String) (stat : Option FileInfo) (s : Sync)
    (isInitial : Bool) : Bool :=
  match stat with
  | none => false
  | some st =>
    if matchesPath s.ignoreMatcher relativePath then false
    else if st.isSymlink then false
    else
      match s.fileMap relativePath with
      | some tracked =>
        if st.isDir then false
        else if tracked.IsSymbolicLink then false
        else if isInitial then
          if st.mtimeUnix ≤ tracked.Mtime then false
          else true
        else
          if st.mtimeUnix = tracked.Mtime ∧ st.size = tracked.Size then false
          else true
      | none => true

/-- Embedding of `sync.shouldDownload` (get.go): untracked paths download;
tracked directories never re-download; tracked files re-download on a strictly
newer mtime or on equal mtime with a differing size. -/
def shouldDownload (change : Change) (s : Sync) : Bool :=
  match s.fileMap change.Path with
  | some tracked =>
    if change.IsDir = false then
      if tracked.Mtime < change.MtimeUnix then true
      else if change.MtimeUnix = tracked.Mtime ∧ change.Size ≠ tracked.Size then true
      else false
    else false
  | none => true

/-- Embedding of `sync.shouldRemoveLocal` (get.go). `fileInformation` is the
pending snapshot captured when the deletion was queued; `statResult` is the
outcome of `os.Stat(absFilepath)` at execution time. -/
def shouldRemoveLocal (statResult : StatResult)
    (fileInformation : Option FileInformation) (s : Sync) : Bool :=
  match fileInformation with
  | none => false
  | some fi =>
    match statResult with
    | StatResult.notExist => false
    | StatResult.otherError => false
    | StatResult.ok stat =>
      match s.fileMap fi.Name with
      | none => false
      | some tracked =>
        if stat.isDir ≠ tracked.IsDirectory ∨ stat.isDir ≠ fi.IsDirectory then false
        else if fi.IsDirectory = false then
          if fi.Mtime = tracked.Mtime ∧ fi.Size = tracked.Size then
            if stat.mtimeUnix ≤ fi.Mtime then true
            else false
          else false
        else true

/-- The file index as a map, the shape of `s.fileIndex.fileMap`. -/
abbrev FileIndexMap := String → Option FileInformation

/-- One event in the life of a single transfer stream: a received chunk of
`n` bytes, an abort, or the final successful commit carrying the observed
`FileRecord`. -/
inductive TransferEvent where
  | chunk (n : Nat)
  | abort
  | commit (record : FileInformation)

/-- Modelled from the spec: the upstream/downstream transfer pipeline
(`upstream.go`/`downstream.go` are not under `src/`). A transfer consumes its
event stream; only a final successful commit writes the observed `FileRecord`
into the index, as a single step with transfer completion. An abort, or a
stream that ends without a commit (a partial transfer), leaves the index
untouched and discards the received bytes. Returns the resulting index, the
bytes received before the end, and whether the transfer committed. -/
def runTransfer (fileMap : FileIndexMap) (path : String) :
    List TransferEvent → FileIndexMap × Nat × Bool
  | [] => (fileMap, 0, false)
  | TransferEvent.chunk n :: rest =>
    let r := runTransfer fileMap path rest
    (r.1, n + r.2.1, r.2.2)
  | TransferEvent.abort :: _ => (fileMap, 0, false)
  | TransferEvent.commit record :: _ =>
    (fun p => if p = path then some record else fileMap p, 0, true)

/-- Modelled from the spec: execution of a queued local deletion
(`downstream.go` is not under `src/`). The decision re-validated at execution
time is the source predicate `shouldRemoveLocal`; the index entry is removed
only when that predicate allows the deletion and the filesystem removal
itself succeeds. -/
def executeLocalDeletion (statResult : StatResult)
    (fileInformation : Option FileInformation) (s : Sync)
    (execSucceeded : Bool) : FileIndexMap :=
  match fileInformation with
  | none => s.fileMap
  | some fi =>
    if shouldRemoveLocal statResult (some fi) s = true ∧ execSucceeded = true then
      fun p => if p = fi.Name then none else s.fileMap p
    else s.fileMap

/-- Modelled from the spec: the upstream commit step (`upstream.go` is not
under `src/`): a successful upload commits a `FileRecord` carrying the
transferred content's observed mtime and size into the index; uploaded
entries are regular files, neither directories nor symlinks. -/
def commitUpload (s : Sync) (path : String) (mtime size : Int) : Sync :=
  { s with
    fileMap := fun p =>
      if p = path then
        some { Name := path, Size := size, Mtime := mtime,
               IsSymbolicLink := false, IsDirectory := false }
      else s.fileMap p }

/-- Modelled from the spec: the result of `services.StartSync` (not under
`src/`) — either a list of sync-session handles or an error. Handles are
abstract identifiers. -/
abbrev StartSyncResult := Except String (List Nat)

/-- Embedding of the sync block of `cmd.startServices` (part_004): when sync
is enabled and `StartSync` fails, `startServices` returns the wrapped error
and exposes no handle; when it succeeds, a deferred `v.Stop(nil)` is issued
for every started session before `startServices` returns. The `.ok` payload
records the `Stop` calls made, each as (handle, optional error argument). -/
def startServicesSyncBlock (syncEnabled : Bool)
    (startSyncResult : StartSyncResult) :
    Except String (List (Nat × Option String)) :=
  if syncEnabled then
    match startSyncResult with
    | Except.error e => Except.error ("Unable to start sync: " ++ e)
    | Except.ok handles => Except.ok (handles.map (fun h => (h, none)))
  else Except.ok []

/-- An open read handle on a capture file: content plus read position.
Models the Go `*os.File` returned by `os.Open`. -/
structure FileHandle where
  content : List Nat
  pos : Nat

/-- `os.Open` on a capture file: a fresh handle at position 0. -/
def openFile (content : List Nat) : FileHandle :=
  { content := content, pos := 0 }

/-- `bytes.Buffer.ReadFrom` on a handle: yields everything from the current
position to the end and leaves the handle exhausted. -/
def readAll (h : FileHandle) : List Nat × FileHandle :=
  (h.content.drop h.pos, { h with pos := h.content.length })

/-- Embedding of the buffer-reading tail of `kubectl.ExecBuffered` (exec.go
lines 113–141), given the contents the remote command wrote to the stdout and
stderr capture files. Line 120 opens the stdout file and line 125 drains it
into the stdout buffer; line 131 opens `stdoutOutput.Name()` — the stdout
file again, not the stderr file — into the `stderrOutput` variable, and line
136 fills the stderr buffer by reading from `stdoutOutput`, the handle
already exhausted at line 125. Returns (stdout bytes, stderr bytes). -/
def execBufferedRead (stdoutContent stderrContent : List Nat) :
    List Nat × List Nat :=
  let stdoutOutput := openFile stdoutContent
  let r1 := readAll stdoutOutput
  let stdoutBytes := r1.1
  let stdoutOutput := r1.2
  let stderrOutput := openFile stdoutContent
  let r2 := readAll stdoutOutput
  let stderrBytes := r2.1
  let _ := stderrOutput
  let _ := stderrContent
  (stdoutBytes, stderrBytes)

/-- Claim C3: `shouldDownload` returns true exactly when no tracked record
exists, or when a tracked record exists, the change is not a directory, and
the change's mtime is strictly newer than the tracked mtime, or equal to it
with a differing size. -/
theorem shouldDownload_characterization (change : Change) (s : Sync) :
    shouldDownload change s = true ↔
      s.fileMap change.Path = none ∨
      ∃ tracked, s.fileMap change.Path = some tracked ∧ change.IsDir = false ∧
        (tracked.Mtime < change.MtimeUnix ∨
         (change.MtimeUnix = tracked.Mtime ∧ change.Size ≠ tracked.Size)) := by
  cases h : s.fileMap change.Path with
  | none => simp [shouldDownload, h]
  | some tracked =>
    simp only [shouldDownload, h, Option.some.injEq, reduceCtorEq, false_or]
    constructor
    · intro hb
      refine ⟨tracked, rfl, ?_⟩
      by_cases hd : change.IsDir = false
      · simp only [hd, if_true] at hb
        by_cases h1 : tracked.Mtime < change.MtimeUnix
        · exact ⟨hd, Or.inl h1⟩
        · simp only [h1, if_false] at hb
          by_cases h2 : change.MtimeUnix = tracked.Mtime ∧ change.Size ≠ tracked.Size
          · exact ⟨hd, Or.inr h2⟩
          · simp [h1, h2] at hb
      · simp [hd] at hb
    · rintro ⟨tracked', rfl, hd, hcase⟩
      rcases hcase with h1 | h2
      · simp [hd, h1]
      · simp only [hd, if_true]
        by_cases h1 : tracked.Mtime < change.MtimeUnix
        · simp [h1]
        · simp [h1, h2]

/-- Claim C5: `shouldRemoveRemote` returns true exactly when neither the
general ignore matcher nor the upload-exclusion matcher matches the path, a
tracked record exists, and it is not a symbolic link; and the
upload-exclusion matcher is consulted by no other of the four decisions — the
other three predicates are invariant under any change of it. -/
theorem shouldRemoveRemote_characterization :
    (∀ (relativePath : String) (s : Sync),
      shouldRemoveRemote relativePath s = true ↔
        matchesPath s.ignoreMatcher relativePath = false ∧
        matchesPath s.uploadIgnoreMatcher relativePath = false ∧
        ∃ tracked, s.fileMap relativePath = some tracked ∧
          tracked.IsSymbolicLink = false) ∧
    (∀ (relativePath : String) (stat : Option FileInfo) (s : Sync)
        (isInitial : Bool) (m : Option (String → Bool)),
      shouldUpload relativePath stat { s with uploadIgnoreMatcher := m } isInitial =
        shouldUpload relativePath stat s isInitial) ∧
    (∀ (change : Change) (s : Sync) (m : Option (String → Bool)),
      shouldDownload change { s with uploadIgnoreMatcher := m } =
        shouldDownload change s) ∧
    (∀ (statResult : StatResult) (fileInformation : Option FileInformation)
        (s : Sync) (m : Option (String → Bool)),
      shouldRemoveLocal statResult fileInformation { s with uploadIgnoreMatcher := m } =
        shouldRemoveLocal statResult fileInformation s) := by
  refine ⟨?_, ?_, ?_, ?_⟩
  · intro relativePath s
    simp only [shouldRemoveRemote]
    split_ifs with h1 h2
    · simp [h1]
    · simp [h1, h2]
    · cases h : s.fileMap relativePath with
      | none => simp [h1, h2, h]
      | some tracked =>
        cases htsl : tracked.IsSymbolicLink <;> simp_all
  · intro relativePath stat s isInitial m; rfl
  · intro change s m; rfl
  · intro statResult fileInformation s m; rfl

/-- Claim C1: `shouldRemoveLocal` returns true exactly when the pending
snapshot is non-null, the live stat succeeds, a tracked record exists, the
live stat's directory-ness agrees with both the snapshot's and the tracked
record's, and — in the file case — the snapshot's mtime and size equal the
tracked record's and the live mtime does not exceed the snapshot mtime; in
every other case, including any stat failure other than "does not exist", it
returns false. -/
theorem shouldRemoveLocal_characterization (statResult : StatResult)
    (fileInformation : Option FileInformation) (s : Sync) :
    shouldRemoveLocal statResult fileInformation s = true ↔
      ∃ fi stat tracked,
        fileInformation = some fi ∧
        statResult = StatResult.ok stat ∧
        s.fileMap fi.Name = some tracked ∧
        stat.isDir = tracked.IsDirectory ∧
        stat.isDir = fi.IsDirectory ∧
        (fi.IsDirectory = true ∨
         (fi.IsDirectory = false ∧ fi.Mtime = tracked.Mtime ∧
          fi.Size = tracked.Size ∧ stat.mtimeUnix ≤ fi.Mtime)) := by
  cases fileInformation with
  | none => simp [shouldRemoveLocal]
  | some fi =>
    cases statResult with
    | notExist => simp [shouldRemoveLocal]
    | otherError => simp [shouldRemoveLocal]
    | ok stat =>
      cases h : s.fileMap fi.Name with
      | none => simp [shouldRemoveLocal, h]
      | some tracked =>
        simp only [shouldRemoveLocal, h]
        constructor
        · intro hb
          split_ifs at hb with hdir hfile hms hle
          · push_neg at hdir
            exact ⟨fi, stat, tracked, rfl, rfl, h, hdir.1, hdir.2,
              Or.inr ⟨hfile, hms.1, hms.2, hle⟩⟩
          · push_neg at hdir
            have hfi : fi.IsDirectory = true := by
              cases hfi : fi.IsDirectory
              · exact absurd hfi hfile
              · rfl
            exact ⟨fi, stat, tracked, rfl, rfl, h, hdir.1, hdir.2, Or.inl hfi⟩
        · rintro ⟨fi', stat', tracked', hfi, hst, htr, hd1, hd2, hcase⟩
          injection hfi with hfi2
          injection hst with hst2
          subst hfi2
          subst hst2
          have htt : tracked = tracked' := Option.some.inj (h.symm.trans htr)
          subst htt
          have hdir : ¬(stat.isDir ≠ tracked.IsDirectory ∨ stat.isDir ≠ fi.IsDirectory) := by
            push_neg
            exact ⟨hd1, hd2⟩
          rcases hcase with hdirTrue | ⟨hfile, hm, hsz, hle⟩
          · have hfi3 : ¬fi.IsDirectory = false := by simp [hdirTrue]
            simp [hdir, hfi3, ← hd1, hd2, hdirTrue]
          · simp [hdir, hfile, hle, ← hd1, hd2, ← hm, hsz]

/-- Claim C2: with a tracked record, `isInitialPass` false, and none of the
earlier false-cases applying (not ignored, live entry and tracked record not
symlinks, not a directory), `shouldUpload` returns false exactly when the
live mtime and size both equal the tracked record's. -/
theorem shouldUpload_steadyState_iff (relativePath : String) (st : FileInfo)
    (s : Sync) (tracked : FileInformation)
    (htr : s.fileMap relativePath = some tracked)
    (hig : matchesPath s.ignoreMatcher relativePath = false)
    (hsl : st.isSymlink = false)
    (hdir : st.isDir = false)
    (htsl : tracked.IsSymbolicLink = false) :
    shouldUpload relativePath (some st) s false = false ↔
      (st.mtimeUnix = tracked.Mtime ∧ st.size = tracked.Size) := by
  simp only [shouldUpload, htr, hig, hsl, hdir, htsl, Bool.false_eq_true,
    if_false]
  split_ifs with hc
  · simp [hc]
  · simp [hc]

/-- Sample index entry used by the concrete witnesses: a tracked regular
file. -/
def sampleTracked : FileInformation :=
  { Name := "a", Size := 50, Mtime := 1000,
    IsSymbolicLink := false, IsDirectory := false }

/-- Sample sync state used by the concrete witnesses: no matchers, one
tracked file at path "a". -/
def sampleSync : Sync :=
  { ignoreMatcher := none, uploadIgnoreMatcher := none,
    fileMap := fun p => if p = "a" then some sampleTracked else none }

/-- Sample live stat matching `sampleTracked`. -/
def sampleStat : FileInfo :=
  { isDir := false, isSymlink := false, mtimeUnix := 1000, size := 50 }

/-- Witness for C2 at path "a" with matching live metadata. -/
theorem shouldUpload_steadyState_iff_witness :
    shouldUpload "a" (some sampleStat) sampleSync false = false ↔
      (sampleStat.mtimeUnix = sampleTracked.Mtime ∧
       sampleStat.size = sampleTracked.Size) :=
  shouldUpload_steadyState_iff "a" sampleStat sampleSync sampleTracked
    (by simp [sampleSync]) rfl rfl rfl rfl

/-- Claim C4: with a tracked record and `isInitialPass` true, `shouldUpload`
returns false whenever the live local mtime does not exceed the tracked
mtime, regardless of size. -/
theorem shouldUpload_initialPass_mtimeLe (relativePath : String)
    (st : FileInfo) (s : Sync) (tracked : FileInformation)
    (htr : s.fileMap relativePath = some tracked)
    (hle : st.mtimeUnix ≤ tracked.Mtime) :
    shouldUpload relativePath (some st) s true = false := by
  simp [shouldUpload, htr, hle]

/-- Witness for C4: tracked mtime 1000, live stat with mtime 900 and a
different size. -/
theorem shouldUpload_initialPass_mtimeLe_witness :
    shouldUpload "a"
      (some { isDir := false, isSymlink := false, mtimeUnix := 900, size := 7 })
      sampleSync true = false :=
  shouldUpload_initialPass_mtimeLe "a"
    { isDir := false, isSymlink := false, mtimeUnix := 900, size := 7 }
    sampleSync sampleTracked (by simp [sampleSync]) (by norm_num [sampleTracked])

/-- Claim C8: a path that is not ignored, whose live stat is non-null and
not a symlink, and that has no tracked record, always uploads — on the
initial pass and in steady state alike; `shouldUpload` is a total boolean
function. -/
theorem shouldUpload_newFile (relativePath : String) (st : FileInfo)
    (s : Sync) (isInitial : Bool)
    (hig : matchesPath s.ignoreMatcher relativePath = false)
    (hsl : st.isSymlink = false)
    (htr : s.fileMap relativePath = none) :
    shouldUpload relativePath (some st) s isInitial = true := by
  simp [shouldUpload, hig, hsl, htr]

/-- Witness for C8 at untracked path "b". -/
theorem shouldUpload_newFile_witness :
    shouldUpload "b" (some sampleStat) sampleSync false = true :=
  shouldUpload_newFile "b" sampleStat sampleSync false rfl rfl
    (by simp [sampleSync])

/-- Claim C7: upload idempotence — after `commitUpload` records the observed
mtime and size for the path, re-evaluating `shouldUpload` on the unchanged
live stat with `isInitialPass` false returns false. -/
theorem shouldUpload_after_commit (s : Sync) (path : String) (st : FileInfo) :
    shouldUpload path (some st)
      (commitUpload s path st.mtimeUnix st.size) false = false := by
  simp [shouldUpload, commitUpload]

/-- Claim C6: a transfer that aborts or ends without committing leaves the
file index unchanged; and an index entry is removed only when the deletion
decision allows it and the removal itself succeeds — a refused decision or a
failed execution leaves the index as it was. -/
theorem index_unchanged_without_commit :
    (∀ (fileMap : FileIndexMap) (path : String) (evs : List TransferEvent),
      (runTransfer fileMap path evs).2.2 = false →
        (runTransfer fileMap path evs).1 = fileMap) ∧
    (∀ (statResult : StatResult) (fileInformation : Option FileInformation)
        (s : Sync) (execSucceeded : Bool),
      shouldRemoveLocal statResult fileInformation s = false →
        executeLocalDeletion statResult fileInformation s execSucceeded =
          s.fileMap) ∧
    (∀ (statResult : StatResult) (fileInformation : Option FileInformation)
        (s : Sync),
      executeLocalDeletion statResult fileInformation s false = s.fileMap) := by
  refine ⟨?_, ?_, ?_⟩
  · intro fileMap path evs
    induction evs with
    | nil => intro _; rfl
    | cons e rest ih =>
      cases e with
      | chunk n =>
        intro hc
        simp only [runTransfer] at hc ⊢
        exact ih hc
      | abort => intro _; rfl
      | commit record =>
        intro hc
        simp [runTransfer] at hc
  · intro statResult fileInformation s execSucceeded hfalse
    cases fileInformation with
    | none => rfl
    | some fi => simp [executeLocalDeletion, hfalse]
  · intro statResult fileInformation s
    cases fileInformation with
    | none => rfl
    | some fi => simp [executeLocalDeletion]

/-- Witness for C6: an aborted transfer, a deletion whose decision said no,
and a deletion whose execution failed, each leaving the sample index
unchanged. -/
theorem index_unchanged_without_commit_witness :
    (runTransfer sampleSync.fileMap "a"
        [TransferEvent.chunk 3, TransferEvent.abort]).1 = sampleSync.fileMap ∧
    executeLocalDeletion StatResult.notExist (some sampleTracked) sampleSync
        true = sampleSync.fileMap ∧
    executeLocalDeletion StatResult.otherError (some sampleTracked) sampleSync
        false = sampleSync.fileMap :=
  ⟨index_unchanged_without_commit.1 sampleSync.fileMap "a"
      [TransferEvent.chunk 3, TransferEvent.abort] rfl,
   index_unchanged_without_commit.2.1 StatResult.notExist (some sampleTracked)
      sampleSync true rfl,
   index_unchanged_without_commit.2.2 StatResult.otherError
      (some sampleTracked) sampleSync⟩

/-- Claim C9: when starting the sync service fails, `startServices` returns
the wrapped error and exposes no sync session handle; when it succeeds, every
started session handle receives a `Stop` call whose optional error argument
is nil before `startServices` returns. -/
theorem startServices_sync_handles :
    (∀ e : String, startServicesSyncBlock true (Except.error e) =
        Except.error ("Unable to start sync: " ++ e)) ∧
    (∀ handles : List Nat, ∃ stops,
        startServicesSyncBlock true (Except.ok handles) = Except.ok stops ∧
        ∀ h ∈ handles, (h, (none : Option String)) ∈ stops) := by
  constructor
  · intro e
    rfl
  · intro handles
    refine ⟨handles.map (fun h => (h, none)), rfl, ?_⟩
    intro h hh
    exact List.mem_map_of_mem _ hh

/-- Witness for C9: a failing start returns the wrapped error; a successful
start with one handle stops it with a nil error argument. -/
theorem startServices_sync_handles_witness :
    startServicesSyncBlock true (Except.error "boom") =
      Except.error ("Unable to start sync: " ++ "boom") ∧
    ∃ stops, startServicesSyncBlock true (Except.ok [7]) = Except.ok stops ∧
      ∀ h ∈ [7], (h, (none : Option String)) ∈ stops :=
  ⟨startServices_sync_handles.1 "boom", startServices_sync_handles.2 [7]⟩

/-- Claim C10: `ExecBuffered`'s buffer-reading tail returns the full stdout
capture as stdout, but always an empty stderr slice: the stderr read opens
the stdout file and then drains the already-exhausted stdout handle, so the
remote command's stderr content is never returned. -/
theorem execBuffered_stderr_empty (stdoutContent stderrContent : List Nat) :
    (execBufferedRead stdoutContent stderrContent).2 = [] ∧
    (execBufferedRead stdoutContent stderrContent).1 = stdoutContent := by
  constructor
  · simp [execBufferedRead, readAll, openFile]
  · simp [execBufferedRead, readAll, openFile]

end DevSpace
